import Mathlib

/-!
# Verification of the freeflow-llm provider layer

Shallow embedding of `src/freeflow_llm/utils.py`, `providers/base.py`,
`providers/gemini.py` and `providers/groq.py`, together with theorems about
the error classifier, the Gemini/Groq request builders and response
converters, and the SSE streaming pipeline.

Conventions of the embedding:
* Python `dict.get(k, d)` on an optional field becomes `Option.getD`;
  a JSON key that may be absent is an `Option` field.
* Python exceptions become an `Except` result; the transport layer
  (`httpx`) is abstracted as a `TransportResult` value describing how the
  single HTTP call ended.
* Python string truthiness (`if s:`) is modelled explicitly as
  `s ≠ ""` (resp. `Option.isSome` together with non-emptiness).
* `time.time()` is passed in as an explicit `now : Nat` parameter.
-/

namespace Freeflow

/-! ## String containment (Python's `pat in s`) -/

/-- Predicate `charsHavePre pat s` is true when the character list `pat` is an initial
segment of `s`. Helper for the substring test. -/
def charsHavePre : List Char → List Char → Bool
  | [], _ => true
  | _ :: _, [] => false
  | a :: as, b :: bs => a == b && charsHavePre as bs

/-- Predicate `charsHaveSub pat s` is true when `pat` occurs contiguously inside `s`;
this models Python's `pat in s` membership test on strings. -/
def charsHaveSub (pat : List Char) : List Char → Bool
  | [] => charsHavePre pat []
  | b :: bs => charsHavePre pat (b :: bs) || charsHaveSub pat bs

/-- Python's `pat in s` on strings. -/
def strIn (pat s : String) : Bool :=
  charsHaveSub pat.data s.data

/-- Python's `s.lower()`: lower-case character by character (the messages
and markers involved are ASCII, where `Char.toLower` and Python's
`str.lower` agree). -/
def strLower (s : String) : String :=
  ⟨s.data.map Char.toLower⟩

/-- Whitespace as stripped by Python's `str.strip()` (space, tab, newline,
carriage return — the forms that occur in SSE lines). -/
def isWsChar (c : Char) : Bool :=
  c == ' ' || c == '\t' || c == '\n' || c == '\r'

/-- Python's `s.strip()`: drop whitespace from both ends. -/
def strStrip (s : String) : String :=
  ⟨(((s.data.dropWhile isWsChar).reverse.dropWhile isWsChar).reverse)⟩

/-- Python's `s.startswith(pat)`. -/
def strStartsWith (s pat : String) : Bool :=
  charsHavePre pat.data s.data

/-- Python's `s[n:]` (drop the first `n` characters). -/
def strDropLeft (s : String) (n : Nat) : String :=
  ⟨s.data.drop n⟩

theorem charsHavePre_iff (pat s : List Char) :
    charsHavePre pat s = true ↔ ∃ t, s = pat ++ t := by
  induction pat generalizing s with
  | nil => simp [charsHavePre]
  | cons a as ih =>
    cases s with
    | nil => simp [charsHavePre]
    | cons b bs =>
      simp only [charsHavePre, Bool.and_eq_true, beq_iff_eq, ih]
      constructor
      · rintro ⟨rfl, t, rfl⟩; exact ⟨t, rfl⟩
      · rintro ⟨t, h⟩
        injection h with h1 h2
        exact ⟨h1.symm, t, h2⟩

theorem charsHaveSub_iff (pat s : List Char) :
    charsHaveSub pat s = true ↔ ∃ l r, s = l ++ pat ++ r := by
  induction s with
  | nil =>
    simp only [charsHaveSub, charsHavePre_iff]
    constructor
    · rintro ⟨t, h⟩
      exact ⟨[], t, by simpa using h⟩
    · rintro ⟨l, r, h⟩
      have hl : l = [] := by
        cases l with
        | nil => rfl
        | cons x xs => simp at h
      subst hl
      exact ⟨r, by simpa using h⟩
  | cons b bs ih =>
    simp only [charsHaveSub, Bool.or_eq_true, charsHavePre_iff, ih]
    constructor
    · rintro (⟨t, h⟩ | ⟨l, r, h⟩)
      · exact ⟨[], t, by simpa using h⟩
      · exact ⟨b :: l, r, by simp [h]⟩
    · rintro ⟨l, r, h⟩
      cases l with
      | nil => exact Or.inl ⟨r, by simpa using h⟩
      | cons x xs =>
        injection h with h1 h2
        exact Or.inr ⟨xs, r, h2⟩

/-- Semantic reading of `strIn`: the pattern's characters occur contiguously
in the string's characters. -/
theorem strIn_iff (pat s : String) :
    strIn pat s = true ↔ ∃ l r, s.data = l ++ pat.data ++ r :=
  charsHaveSub_iff pat.data s.data

/-! ## Error classifier (`utils.is_rate_limit_error`) -/

/-- The marker substrings scanned for in `is_rate_limit_error`
(`utils.py` lines 67–72). -/
def rate_limit_keywords : List String :=
  ["rate limit", "too many requests", "quota exceeded", "resource exhausted"]

/-- Embedding of `utils.is_rate_limit_error` (`utils.py` lines 52–74):
`429` is always a rate limit; otherwise the lower-cased message is scanned
for the marker substrings. -/
def is_rate_limit_error (status_code : Int) (error_message : String) : Bool :=
  if status_code = 429 then true
  else rate_limit_keywords.any (fun kw => strIn kw (strLower error_message))

/-! ## Error taxonomy and abstract transport -/

/-- Modelled from the spec: `exceptions.py` is not under `src/`. The error
kinds an adapter call can end in: `rateLimitError` and `providerError` are
the two exception classes imported from `exceptions` by every provider
module in `src/` (each carries a provider name and a message);
`providerUnavailable` is the additional kind spec §7 lists (credential
missing or client construction failed) as distinct from the generic
`ProviderFailure` — no `src/` module imports or raises such a class. -/
inductive FFError where
  | rateLimitError (provider : String) (message : String)
  | providerError (provider : String) (message : String)
  | providerUnavailable (provider : String) (message : String)
deriving DecidableEq, Repr

/-- Test for the `providerUnavailable` kind. -/
def FFError.isUnavailable : FFError → Bool
  | .providerUnavailable _ _ => true
  | _ => false

/-- How a single HTTP call through the transport layer ended: a parsed JSON
body, an `httpx.HTTPStatusError` (whose response's extracted error message
is `errorMsg`), an `httpx.TimeoutException`, or any other exception
(`otherMsg` is Python's `str(e)`). -/
inductive TransportResult (α : Type) where
  | ok (body : α)
  | httpStatusError (status : Int) (errorMsg : String)
  | timeout (msg : String)
  | otherExn (otherMsg : String)

/-! ## Canonical data model -/

/-- A caller-supplied chat message (`{"role": ..., "content": ...}`). -/
structure Message where
  role : String
  content : String
deriving DecidableEq, Repr

/-- The `message` object inside a non-streaming canonical choice. -/
structure ChoiceMessage where
  role : String
  content : String
deriving DecidableEq, Repr

/-- A non-streaming canonical choice, as built by the adapters'
`FreeFlowResponse.from_dict` call sites. -/
structure Choice where
  index : Nat
  message : ChoiceMessage
  finish_reason : Option String
deriving DecidableEq, Repr

/-- Token usage statistics (`prompt_tokens`, `completion_tokens`,
`total_tokens`). -/
structure Usage where
  prompt_tokens : Nat
  completion_tokens : Nat
  total_tokens : Nat
deriving DecidableEq, Repr

/-- The canonical non-streaming response. `models.py` is not under `src/`;
this structure mirrors, field for field, the dictionary the adapters pass
to `FreeFlowResponse.from_dict` together with the `provider` argument. -/
structure FreeFlowResponse where
  id : String
  object : String
  created : Nat
  model : String
  choices : List Choice
  usage : Option Usage
  provider : String
deriving DecidableEq, Repr

/-- A streaming canonical choice: the Gemini adapter builds
`delta = {"content": t}` when the delta text is non-empty and `{}`
otherwise; `deltaContent = none` models the empty `{}` delta. -/
structure StreamChoice where
  index : Nat
  deltaContent : Option String
  finish_reason : Option String
deriving DecidableEq, Repr

/-- The canonical streaming chunk (`"object": "chat.completion.chunk"`),
mirroring the dictionaries built inside `chat_stream`. -/
structure FreeFlowChunk where
  id : String
  created : Nat
  model : String
  choices : List StreamChoice
  provider : String
deriving DecidableEq, Repr

/-! ## SSE pipeline (`utils.stream_api_request`, `utils.parse_sse_line`) -/

/-- The line filter inside `utils.stream_api_request` (lines 150–156):
each raw line is stripped, lines carrying the `"data: "` prefix have it
removed, the literal `"[DONE]"` payload ends the stream, every other
payload is yielded. -/
def sse_data_lines : List String → List String
  | [] => []
  | l :: rest =>
    let line := strStrip l
    if strStartsWith line "data: " then
      let data := strDropLeft line 6
      if data = "[DONE]" then [] else data :: sse_data_lines rest
    else sse_data_lines rest

/-- Embedding of `utils.parse_sse_line` (lines 159–176), abstracted over a
JSON decoder `decode` (returning `none` where `json.loads` would raise
`JSONDecodeError`): an empty payload (Python falsiness of `line`) or the
`"[DONE]"` sentinel yields `none`, otherwise the decoder's result. -/
def parse_sse_line {J : Type} (decode : String → Option J) (line : String) :
    Option J :=
  if line = "" ∨ line = "[DONE]" then none else decode line

/-- The generic streaming consumption loop of `BaseProvider.chat_stream`
(`base.py` lines 223–230) composed with `stream_api_request`: each
surviving SSE payload is decoded, decodable payloads go through the
per-chunk parser `parseChunk`, and only non-`none` results are yielded. -/
def chat_stream_sse {J R : Type} (decode : String → Option J)
    (parseChunk : J → Option R) (rawLines : List String) : List R :=
  (sse_data_lines rawLines).filterMap
    (fun l => (parse_sse_line decode l).bind parseChunk)

/-! ## Default models -/

/-- Modelled from the spec: `config.py` is not under `src/`; the adapter
docstrings name the defaults (`gemini-2.5-flash`, `llama-3.3-70b-versatile`)
and §4.3 describes a static provider→default-model table. -/
def DEFAULT_MODELS : String → Option String
  | "gemini" => some "gemini-2.5-flash"
  | "groq" => some "llama-3.3-70b-versatile"
  | _ => none

/-! ## Gemini adapter (`providers/gemini.py`) -/

/-- One element of Gemini's `contents` array; `parts` holds the `text` of
each `{"text": ...}` part object. -/
structure GeminiContent where
  role : String
  parts : List String
deriving DecidableEq, Repr

/-- One `{"text": ...}` part of a Gemini candidate's content; `none` models
a part object without a `"text"` key. -/
structure GeminiPart where
  text : Option String
deriving DecidableEq, Repr

/-- One element of a Gemini reply's `candidates`: `parts` is
`candidate.get("content", {}).get("parts", [])` and `finishReason` the
optional `"finishReason"` value. -/
structure GeminiCandidate where
  parts : List GeminiPart
  finishReason : Option String
deriving DecidableEq, Repr

/-- A parsed Gemini reply body; `candidates` is
`response_data.get("candidates", [])`. -/
structure GeminiResponse where
  candidates : List GeminiCandidate
deriving DecidableEq, Repr

/-- One iteration of the message loop in
`GeminiProvider._convert_messages_to_gemini_format` (`gemini.py` lines
53–63): a `system` message overwrites the pending system instruction, a
`user` or `assistant` message is appended to `contents` (with role `user`
resp. `model`), any other role is dropped. -/
def gemini_convert_step (acc : List GeminiContent × Option String)
    (msg : Message) : List GeminiContent × Option String :=
  if msg.role = "system" then (acc.1, some msg.content)
  else if msg.role = "user" then
    (acc.1 ++ [{ role := "user", parts := [msg.content] }], acc.2)
  else if msg.role = "assistant" then
    (acc.1 ++ [{ role := "model", parts := [msg.content] }], acc.2)
  else acc

/-- Embedding of `GeminiProvider._convert_messages_to_gemini_format`
(`gemini.py` lines 41–65), returning `(contents, system_instruction)`. -/
def _convert_messages_to_gemini_format (messages : List Message) :
    List GeminiContent × Option String :=
  messages.foldl gemini_convert_step ([], none)

/-- The `finish_reason_map` dictionary of `gemini.py` (lines 81–87 and
231–237), as a lookup function: `none` models a missing key. -/
def finish_reason_map (g : String) : Option String :=
  if g = "STOP" then some "stop"
  else if g = "MAX_TOKENS" then some "length"
  else if g = "SAFETY" then some "content_filter"
  else if g = "RECITATION" then some "content_filter"
  else if g = "OTHER" then some "stop"
  else none

/-- Embedding of `GeminiProvider._convert_gemini_response_to_standard`
(`gemini.py` lines 67–112). `now` stands for `int(time.time())`. -/
def _convert_gemini_response_to_standard (rd : GeminiResponse)
    (model : String) (now : Nat) : FreeFlowResponse :=
  let tf : String × String :=
    match rd.candidates with
    | [] => ("", "stop")
    | c :: _ =>
      let text :=
        match c.parts with
        | [] => ""
        | p :: _ => p.text.getD ""
      let gemini_finish := c.finishReason.getD "STOP"
      (text, (finish_reason_map gemini_finish).getD "stop")
  { id := "chatcmpl-" ++ toString now
  , object := "chat.completion"
  , created := now
  , model := model
  , choices := [{ index := 0
                , message := { role := "model", content := tf.1 }
                , finish_reason := some tf.2 }]
  , usage := none
  , provider := "gemini" }

/-- The `generationConfig` object of the Gemini wire body: `temperature`
and `topP` are always present, `maxOutputTokens` only when `max_tokens`
was given (`gemini.py` lines 139–145). -/
structure GenerationConfig where
  temperature : Float
  topP : Float
  maxOutputTokens : Option Nat
deriving Repr

/-- The Gemini request wire body (`json_data` of `gemini.py` lines
147–153): `systemInstruction = some t` models the presence of the
`{"parts": [{"text": t}]}` key. -/
structure GeminiWireBody where
  contents : List GeminiContent
  generationConfig : GenerationConfig
  systemInstruction : Option String
deriving Repr

/-- Assembly of the Gemini request body (`gemini.py` lines 137–153,
identical in `chat` and `chat_stream`). Python's `if system_instruction:`
is truthy only for a non-`None`, non-empty string, so an empty system
instruction leaves the `systemInstruction` key out. -/
def gemini_build_body (messages : List Message) (temperature top_p : Float)
    (max_tokens : Option Nat) : GeminiWireBody :=
  let conv := _convert_messages_to_gemini_format messages
  { contents := conv.1
  , generationConfig :=
      { temperature := temperature, topP := top_p, maxOutputTokens := max_tokens }
  , systemInstruction :=
      match conv.2 with
      | some t => if t = "" then none else some t
      | none => none }

/-- The condition of Gemini's generic exception handler (`gemini.py` lines
166–174): `"429" in error_str or "quota" in error_str.lower() or
is_rate_limit_error(0, error_str)`. -/
def gemini_generic_is_rate_limit (error_str : String) : Bool :=
  strIn "429" error_str || strIn "quota" (strLower error_str)
    || is_rate_limit_error 0 error_str

/-- Embedding of `GeminiProvider.chat` (`gemini.py` lines 114–174). The
transport (`make_api_request`) is abstracted as a function from the wire
body to a `TransportResult`; the second component of the result lists the
requests actually handed to the transport, in order. -/
def geminiChat (apiKey : Option String) (messages : List Message)
    (temperature : Float) (max_tokens : Option Nat) (top_p : Float)
    (model : Option String)
    (transport : GeminiWireBody → TransportResult GeminiResponse)
    (now : Nat) :
    Except FFError FreeFlowResponse × List GeminiWireBody :=
  if apiKey.isNone then
    (.error (.providerError "gemini" "Gemini API key missing"), [])
  else
    let m := match model with
      | some m => m
      | none => (DEFAULT_MODELS "gemini").getD ""
    let body := gemini_build_body messages temperature top_p max_tokens
    match transport body with
    | .ok rd => (.ok (_convert_gemini_response_to_standard rd m now), [body])
    | .httpStatusError s emsg =>
      if is_rate_limit_error s emsg then
        (.error (.rateLimitError "gemini" emsg), [body])
      else (.error (.providerError "gemini" emsg), [body])
    | .timeout msg =>
      (.error (.providerError "gemini" ("Request timeout: " ++ msg)), [body])
    | .otherExn estr =>
      if gemini_generic_is_rate_limit estr then
        (.error (.rateLimitError "gemini" estr), [body])
      else (.error (.providerError "gemini" estr), [body])

/-- The per-payload chunk conversion inside `GeminiProvider.chat_stream`
(`gemini.py` lines 223–260): a payload without candidates is skipped
(`continue`); otherwise a canonical chunk is built whose delta carries the
first part's text (an empty text gives the empty delta `{}`) and whose
finish reason goes through `finish_reason_map` only when the vendor value
is truthy, yielding `none` otherwise. -/
def gemini_parse_stream_chunk (chunk : GeminiResponse) (model : String)
    (now : Nat) : Option FreeFlowChunk :=
  match chunk.candidates with
  | [] => none
  | c :: _ =>
    let delta_text :=
      match c.parts with
      | [] => ""
      | p :: _ => p.text.getD ""
    let finish : Option String :=
      match c.finishReason with
      | none => none
      | some g => if g = "" then none else finish_reason_map g
    some { id := "chatcmpl-" ++ toString now
         , created := now
         , model := model
         , choices := [{ index := 0
                       , deltaContent := if delta_text = "" then none else some delta_text
                       , finish_reason := finish }]
         , provider := "gemini" }

/-- Embedding of `GeminiProvider.chat_stream` (`gemini.py` lines 176–277),
with the streaming transport abstracted as the list of raw SSE lines it
produces (or the failure it ends in) and JSON decoding abstracted by
`decode`. The yielded chunks are collected into a list. -/
def gemini_chat_stream (decode : String → Option GeminiResponse)
    (apiKey : Option String) (messages : List Message)
    (temperature : Float) (max_tokens : Option Nat) (top_p : Float)
    (model : Option String)
    (streamTransport : GeminiWireBody → TransportResult (List String))
    (now : Nat) :
    Except FFError (List FreeFlowChunk) × List GeminiWireBody :=
  if apiKey.isNone then
    (.error (.providerError "gemini" "Gemini API key missing"), [])
  else
    let m := match model with
      | some m => m
      | none => (DEFAULT_MODELS "gemini").getD ""
    let body := gemini_build_body messages temperature top_p max_tokens
    match streamTransport body with
    | .ok rawLines =>
      (.ok (chat_stream_sse decode
        (fun c => gemini_parse_stream_chunk c m now) rawLines), [body])
    | .httpStatusError s emsg =>
      if is_rate_limit_error s emsg then
        (.error (.rateLimitError "gemini" emsg), [body])
      else (.error (.providerError "gemini" emsg), [body])
    | .timeout msg =>
      (.error (.providerError "gemini" ("Request timeout: " ++ msg)), [body])
    | .otherExn estr =>
      if gemini_generic_is_rate_limit estr then
        (.error (.rateLimitError "gemini" estr), [body])
      else (.error (.providerError "gemini" estr), [body])

/-! ## Shared generic-exception classification (`base.py`, `groq.py`) -/

/-- The condition of the generic exception handlers in
`BaseProvider._make_request` / `_stream_request` (`base.py` lines 105,
138) and `GroqProvider.chat` / `chat_stream` (`groq.py` lines 123, 202):
`"429" in error_str or is_rate_limit_error(0, error_str)`. -/
def generic_exn_is_rate_limit (error_str : String) : Bool :=
  strIn "429" error_str || is_rate_limit_error 0 error_str

/-- Embedding of `BaseProvider._make_request` (`base.py` lines 82–107):
the POST outcome is classified into the two raised error kinds, or the
parsed body is returned. -/
def base_make_request {α : Type} (name : String)
    (transport : TransportResult α) : Except FFError α :=
  match transport with
  | .ok r => .ok r
  | .httpStatusError s emsg =>
    if is_rate_limit_error s emsg then .error (.rateLimitError name emsg)
    else .error (.providerError name emsg)
  | .timeout m => .error (.providerError name ("Request timeout: " ++ m))
  | .otherExn estr =>
    if generic_exn_is_rate_limit estr then .error (.rateLimitError name estr)
    else .error (.providerError name estr)

/-! ## Groq adapter (`providers/groq.py`) -/

/-- The `message` object of a Groq vendor choice; both keys are read with
`.get(..., default)`. -/
structure GroqVendorMessage where
  role : Option String
  content : Option String
deriving DecidableEq, Repr

/-- One element of a Groq vendor reply's `choices`. `finish_reason` is
`Option (Option String)`: the outer `none` models a missing key (so
`.get("finish_reason", "stop")` returns the default), `some none` a JSON
`null` stored under the key (returned as-is by `.get`). -/
structure GroqVendorChoice where
  index : Option Nat
  message : Option GroqVendorMessage
  finish_reason : Option (Option String)
deriving DecidableEq, Repr

/-- A parsed Groq (OpenAI-style) non-streaming reply body; `choices` is
`response_data.get("choices", [])` and `usage` is present exactly when
`response_data.get("usage")` is truthy with the three token fields. -/
structure GroqResponse where
  id : Option String
  created : Option Nat
  model : Option String
  choices : List GroqVendorChoice
  usage : Option Usage
deriving DecidableEq, Repr

/-- The Groq request wire body (`json_data` of `groq.py` lines 64–74 resp.
150–161): `max_tokens` is always present (the given value, else `1024`);
`stream = some true` models the `"stream": True` key of `chat_stream`,
`none` its absence in `chat`. The `json_data.update(kwargs)` passthrough
of extra options is not modelled (no claim concerns it). -/
structure GroqWireBody where
  model : String
  messages : List Message
  temperature : Float
  top_p : Float
  max_tokens : Nat
  stream : Option Bool
deriving Repr

/-- Assembly of the Groq request body (`groq.py` lines 64–74 / 150–161). -/
def groq_build_body (messages : List Message) (temperature top_p : Float)
    (max_tokens : Option Nat) (model : String) (stream : Option Bool) :
    GroqWireBody :=
  { model := model
  , messages := messages
  , temperature := temperature
  , top_p := top_p
  , max_tokens := max_tokens.getD 1024
  , stream := stream }

/-- The response conversion inside `GroqProvider.chat` (`groq.py` lines
83–111): choices are mapped element-wise with per-field defaults, usage is
passed through when present. `now` stands for `int(time.time())`. -/
def groq_parse_response (rd : GroqResponse) (model : String) (now : Nat) :
    FreeFlowResponse :=
  { id := rd.id.getD ("chatcmpl-" ++ toString now)
  , object := "chat.completion"
  , created := rd.created.getD now
  , model := rd.model.getD model
  , choices := rd.choices.map (fun c =>
      let msg := c.message.getD { role := none, content := none }
      { index := c.index.getD 0
      , message := { role := msg.role.getD "assistant"
                   , content := msg.content.getD "" }
      , finish_reason :=
          match c.finish_reason with
          | none => some "stop"
          | some v => v })
  , usage := rd.usage
  , provider := "groq" }

/-- Embedding of `GroqProvider.chat` (`groq.py` lines 41–125), with the
transport abstracted as in `geminiChat`; the second component lists the
requests handed to the transport. -/
def groqChat (apiKey : Option String) (messages : List Message)
    (temperature : Float) (max_tokens : Option Nat) (top_p : Float)
    (model : Option String)
    (transport : GroqWireBody → TransportResult GroqResponse)
    (now : Nat) :
    Except FFError FreeFlowResponse × List GroqWireBody :=
  if apiKey.isNone then
    (.error (.providerError "groq" "Groq API key missing"), [])
  else
    let m := match model with
      | some m => m
      | none => (DEFAULT_MODELS "groq").getD ""
    let body := groq_build_body messages temperature top_p max_tokens m none
    match transport body with
    | .ok rd => (.ok (groq_parse_response rd m now), [body])
    | .httpStatusError s emsg =>
      if is_rate_limit_error s emsg then
        (.error (.rateLimitError "groq" emsg), [body])
      else (.error (.providerError "groq" emsg), [body])
    | .timeout msg =>
      (.error (.providerError "groq" ("Request timeout: " ++ msg)), [body])
    | .otherExn estr =>
      if generic_exn_is_rate_limit estr then
        (.error (.rateLimitError "groq" estr), [body])
      else (.error (.providerError "groq" estr), [body])

/-- One element of a Groq streaming chunk's `choices`: the `delta` object
is passed through unmodified, modelled as a JSON object with string
values; `finish_reason` as in `GroqVendorChoice`. -/
structure GroqStreamVendorChoice where
  index : Option Nat
  delta : Option (List (String × String))
  finish_reason : Option (Option String)
deriving DecidableEq, Repr

/-- A parsed Groq streaming chunk body. -/
structure GroqStreamChunk where
  id : Option String
  created : Option Nat
  model : Option String
  choices : List GroqStreamVendorChoice
deriving DecidableEq, Repr

/-- One choice of the canonical chunk the Groq adapter yields; the vendor
`delta` object is carried through verbatim. -/
structure GroqStreamChoiceOut where
  index : Nat
  delta : List (String × String)
  finish_reason : Option String
deriving DecidableEq, Repr

/-- The canonical streaming chunk built inside `GroqProvider.chat_stream`
(`groq.py` lines 173–190). -/
structure GroqChunkOut where
  id : String
  created : Nat
  model : String
  choices : List GroqStreamChoiceOut
  provider : String
deriving DecidableEq, Repr

/-- The per-payload conversion inside `GroqProvider.chat_stream` (`groq.py`
lines 173–191): every decoded payload is converted and yielded (the Groq
loop has no skip after JSON decoding). -/
def groq_parse_stream_chunk (cd : GroqStreamChunk) (model : String)
    (now : Nat) : Option GroqChunkOut :=
  some
    { id := cd.id.getD ("chatcmpl-" ++ toString now)
    , created := cd.created.getD now
    , model := cd.model.getD model
    , choices := cd.choices.map (fun c =>
        { index := c.index.getD 0
        , delta := c.delta.getD []
        , finish_reason :=
            match c.finish_reason with
            | none => none
            | some v => v })
    , provider := "groq" }

/-- Embedding of `GroqProvider.chat_stream` (`groq.py` lines 127–204),
analogous to `gemini_chat_stream`. -/
def groq_chat_stream (decode : String → Option GroqStreamChunk)
    (apiKey : Option String) (messages : List Message)
    (temperature : Float) (max_tokens : Option Nat) (top_p : Float)
    (model : Option String)
    (streamTransport : GroqWireBody → TransportResult (List String))
    (now : Nat) :
    Except FFError (List GroqChunkOut) × List GroqWireBody :=
  if apiKey.isNone then
    (.error (.providerError "groq" "Groq API key missing"), [])
  else
    let m := match model with
      | some m => m
      | none => (DEFAULT_MODELS "groq").getD ""
    let body := groq_build_body messages temperature top_p max_tokens m (some true)
    match streamTransport body with
    | .ok rawLines =>
      (.ok (chat_stream_sse decode
        (fun c => groq_parse_stream_chunk c m now) rawLines), [body])
    | .httpStatusError s emsg =>
      if is_rate_limit_error s emsg then
        (.error (.rateLimitError "groq" emsg), [body])
      else (.error (.providerError "groq" emsg), [body])
    | .timeout msg =>
      (.error (.providerError "groq" ("Request timeout: " ++ msg)), [body])
    | .otherExn estr =>
      if generic_exn_is_rate_limit estr then
        (.error (.rateLimitError "groq" estr), [body])
      else (.error (.providerError "groq" estr), [body])

/-! ## Specification-side descriptions of the Gemini message split -/

/-- Spec-side description of the Gemini `contents` array (spec §4.2):
`user` messages keep role `user`, `assistant` messages get role `model`,
in order; `system` messages (and unknown roles) are excluded. -/
def gemini_contents_spec (messages : List Message) : List GeminiContent :=
  messages.filterMap (fun m =>
    if m.role = "user" then some { role := "user", parts := [m.content] }
    else if m.role = "assistant" then some { role := "model", parts := [m.content] }
    else none)

/-- Spec-side description of the extracted system instruction: the content
of the last (or only) `system` message, if any. -/
def gemini_system_spec : List Message → Option String
  | [] => none
  | m :: ms =>
    match gemini_system_spec ms with
    | some t => some t
    | none => if m.role = "system" then some m.content else none

/-- Function `gemini_system_spec` indeed picks the last `system` message. -/
theorem gemini_system_spec_eq_getLast (messages : List Message) :
    gemini_system_spec messages =
      ((messages.filter (fun m => m.role == "system")).getLast?).map
        Message.content := by
  induction messages with
  | nil => rfl
  | cons m ms ih =>
    by_cases hs : m.role = "system"
    · simp only [gemini_system_spec, ih, List.filter_cons, hs]
      rcases hlast : (ms.filter (fun m => m.role == "system")).getLast? with _ | t
      · rcases hf : ms.filter (fun m => m.role == "system") with _ | ⟨x, xs⟩
        · simp [hf, hs]
        · rw [hf] at hlast; simp at hlast
      · rcases hf : ms.filter (fun m => m.role == "system") with _ | ⟨x, xs⟩
        · rw [hf] at hlast; simp at hlast
        · simp only [hlast, Option.map_some]
          rw [hf] at hlast ⊢
          simp [List.getLast?_cons_cons, hlast]
    · simp only [gemini_system_spec, ih, List.filter_cons, hs]
      rcases hlast : (ms.filter (fun m => m.role == "system")).getLast? with _ | t <;>
        simp [hlast, hs]

/-- The folded message loop computes exactly the spec-side split: the
`contents` produced so far are extended by the translated non-system
messages, and the system instruction is the last system content seen. -/
theorem convert_messages_fold (msgs : List Message)
    (acc : List GeminiContent × Option String) :
    msgs.foldl gemini_convert_step acc =
      (acc.1 ++ gemini_contents_spec msgs,
       match gemini_system_spec msgs with
       | some t => some t
       | none => acc.2) := by
  induction msgs generalizing acc with
  | nil => simp [gemini_contents_spec, gemini_system_spec]
  | cons m ms ih =>
    simp only [List.foldl_cons, ih]
    by_cases hs : m.role = "system"
    · simp [gemini_convert_step, gemini_contents_spec, gemini_system_spec, hs]
      rcases h2 : gemini_system_spec ms with _ | t <;> simp
    · by_cases hu : m.role = "user"
      · simp [gemini_convert_step, gemini_contents_spec, gemini_system_spec, hs, hu]
        rcases h2 : gemini_system_spec ms with _ | t <;> simp [h2]
      · by_cases ha : m.role = "assistant"
        · simp [gemini_convert_step, gemini_contents_spec, gemini_system_spec,
            hs, hu, ha]
          rcases h2 : gemini_system_spec ms with _ | t <;> simp [h2]
        · simp [gemini_convert_step, gemini_contents_spec, gemini_system_spec,
            hs, hu, ha]
          rcases h2 : gemini_system_spec ms with _ | t <;> simp [h2]

/-- Theorem: `_convert_messages_to_gemini_format` returns the spec-side contents
and the last system message's content. -/
theorem convert_messages_eq_spec (messages : List Message) :
    _convert_messages_to_gemini_format messages =
      (gemini_contents_spec messages, gemini_system_spec messages) := by
  rw [_convert_messages_to_gemini_format, convert_messages_fold]
  rcases h : gemini_system_spec messages with _ | t <;> simp

/-! ## Theorems -/

/-- C1: `is_rate_limit_error` reports a rate-limit condition exactly when
the status code is `429` or the lower-cased message contains one of the
marker substrings `"rate limit"`, `"too many requests"`,
`"quota exceeded"`, `"resource exhausted"`; in every other case it returns
`false` (the callers then classify the failure as a generic provider
error). -/
theorem is_rate_limit_error_characterization (status : Int) (msg : String) :
    is_rate_limit_error status msg = true ↔
      status = 429 ∨
        ∃ kw ∈ rate_limit_keywords,
          ∃ l r, (strLower msg).data = l ++ kw.data ++ r := by
  unfold is_rate_limit_error
  by_cases h : status = 429
  · simp [h]
  · simp [h, List.any_eq_true, strIn_iff]

/-- C3: the Gemini finish-reason remap is exactly the table
`STOP→stop, MAX_TOKENS→length, SAFETY→content_filter,
RECITATION→content_filter, OTHER→stop` (case-sensitive on the vendor
value); in the final-response converter a mapped vendor value maps through
the table while an unmapped or absent one yields `"stop"`; in the
streaming-chunk converter an absent vendor finish-reason yields `none`
and a mapped (truthy) one maps through the table. -/
theorem gemini_finish_reason_remap :
    (∀ v s, finish_reason_map v = some s ↔
        (v = "STOP" ∧ s = "stop") ∨ (v = "MAX_TOKENS" ∧ s = "length") ∨
        (v = "SAFETY" ∧ s = "content_filter") ∨
        (v = "RECITATION" ∧ s = "content_filter") ∨
        (v = "OTHER" ∧ s = "stop"))
    ∧ (∀ rd model now c v s, rd.candidates.head? = some c →
        c.finishReason = some v → finish_reason_map v = some s →
        (_convert_gemini_response_to_standard rd model now).choices.map
          Choice.finish_reason = [some s])
    ∧ (∀ rd model now c v, rd.candidates.head? = some c →
        c.finishReason = some v → finish_reason_map v = none →
        (_convert_gemini_response_to_standard rd model now).choices.map
          Choice.finish_reason = [some "stop"])
    ∧ (∀ rd model now c, rd.candidates.head? = some c →
        c.finishReason = none →
        (_convert_gemini_response_to_standard rd model now).choices.map
          Choice.finish_reason = [some "stop"])
    ∧ (∀ ch model now c, ch.candidates.head? = some c →
        c.finishReason = none →
        (gemini_parse_stream_chunk ch model now).map
          (fun o => o.choices.map StreamChoice.finish_reason) = some [none])
    ∧ (∀ ch model now c v s, ch.candidates.head? = some c →
        c.finishReason = some v → v ≠ "" → finish_reason_map v = some s →
        (gemini_parse_stream_chunk ch model now).map
          (fun o => o.choices.map StreamChoice.finish_reason) = some [some s]) := by
  refine ⟨?_, ?_, ?_, ?_, ?_, ?_⟩
  · intro v s
    unfold finish_reason_map
    split_ifs <;> simp_all <;> exact eq_comm
  · intro rd model now c v s hc hv hm
    obtain ⟨cands⟩ := rd
    cases cands with
    | nil => simp at hc
    | cons c0 rest =>
      simp only [List.head?] at hc
      injection hc with hc
      subst hc
      simp [_convert_gemini_response_to_standard, hv, hm]
  · intro rd model now c v hc hv hm
    obtain ⟨cands⟩ := rd
    cases cands with
    | nil => simp at hc
    | cons c0 rest =>
      simp only [List.head?] at hc
      injection hc with hc
      subst hc
      simp [_convert_gemini_response_to_standard, hv, hm]
  · intro rd model now c hc hv
    obtain ⟨cands⟩ := rd
    cases cands with
    | nil => simp at hc
    | cons c0 rest =>
      simp only [List.head?] at hc
      injection hc with hc
      subst hc
      simp [_convert_gemini_response_to_standard, hv, finish_reason_map]
  · intro ch model now c hc hv
    obtain ⟨cands⟩ := ch
    cases cands with
    | nil => simp at hc
    | cons c0 rest =>
      simp only [List.head?] at hc
      injection hc with hc
      subst hc
      simp [gemini_parse_stream_chunk, hv]
  · intro ch model now c v s hc hv hne hm
    obtain ⟨cands⟩ := ch
    cases cands with
    | nil => simp at hc
    | cons c0 rest =>
      simp only [List.head?] at hc
      injection hc with hc
      subst hc
      simp [gemini_parse_stream_chunk, hv, hne, hm]

/-- C4 counterexample: for the message list
`[{role:"system", content:""}, {role:"user", content:"hi"}]` the last (and
only) system message has text `""`, yet the wire body omits
`systemInstruction` entirely (Python's `if system_instruction:` is falsy
on the empty string), so the wire body does not carry the last system
message's text as the claim states. -/
theorem gemini_system_instruction_empty_dropped :
    gemini_system_spec [⟨"system", ""⟩, ⟨"user", "hi"⟩] = some ""
    ∧ (gemini_build_body [⟨"system", ""⟩, ⟨"user", "hi"⟩]
        1.0 1.0 none).systemInstruction = none := by
  constructor
  · rfl
  · rfl

/-- C2 counterexample: on a Gemini adapter without a credential, `chat`
ends in the generic `providerError` kind — the error raised is not of a
distinct `providerUnavailable` kind as the claim states (the code raises
the same `ProviderError` class it uses for generic provider failures). -/
theorem gemini_unavailable_raises_provider_error :
    (geminiChat none [⟨"user", "hi"⟩] 1.0 none 1.0 none
        (fun _ => .ok ⟨[]⟩) 0).1
      = .error (.providerError "gemini" "Gemini API key missing")
    ∧ FFError.isUnavailable
        (.providerError "gemini" "Gemini API key missing") = false :=
  ⟨rfl, rfl⟩

/-- C2 (amended): on an adapter without a configured credential, `chat`
and `chat_stream` of both providers fail with a `ProviderError` (the
generic provider-error class — the code has no distinct
`ProviderUnavailable` kind) whose message names the missing credential,
and no request is handed to the transport. -/
theorem provider_unavailable_gate (messages : List Message)
    (temperature top_p : Float) (max_tokens : Option Nat)
    (model : Option String) (now : Nat) :
    (∀ transport,
      geminiChat none messages temperature max_tokens top_p model transport now
        = (.error (.providerError "gemini" "Gemini API key missing"), []))
    ∧ (∀ decode streamTransport,
      gemini_chat_stream decode none messages temperature max_tokens top_p
          model streamTransport now
        = (.error (.providerError "gemini" "Gemini API key missing"), []))
    ∧ (∀ transport,
      groqChat none messages temperature max_tokens top_p model transport now
        = (.error (.providerError "groq" "Groq API key missing"), []))
    ∧ (∀ decode streamTransport,
      groq_chat_stream decode none messages temperature max_tokens top_p
          model streamTransport now
        = (.error (.providerError "groq" "Groq API key missing"), [])) :=
  ⟨fun _ => rfl, fun _ _ => rfl, fun _ => rfl, fun _ _ => rfl⟩

/-- C4 (amended): the request builder maps role `user`→`user` and
`assistant`→`model` into the ordered `contents` array, excluding every
`system` message; the wire body's `systemInstruction` carries the text of
the last (or only) `system` message whenever that text is non-empty, and
is omitted when there is no system message or its text is empty. The
third conjunct ties the builder to `chat`: an available adapter hands
exactly this body to the transport. -/
theorem gemini_request_mapping (messages : List Message)
    (temperature top_p : Float) (max_tokens : Option Nat) :
    (gemini_build_body messages temperature top_p max_tokens).contents
        = gemini_contents_spec messages
    ∧ (gemini_build_body messages temperature top_p max_tokens).systemInstruction
        = (gemini_system_spec messages).bind
            (fun t => if t = "" then none else some t)
    ∧ (∀ (k : String) (model : Option String)
        (transport : GeminiWireBody → TransportResult GeminiResponse) (now : Nat),
        (geminiChat (some k) messages temperature max_tokens top_p model
          transport now).2
          = [gemini_build_body messages temperature top_p max_tokens]) := by
  refine ⟨?_, ?_, ?_⟩
  · simp [gemini_build_body, convert_messages_eq_spec]
  · simp only [gemini_build_body, convert_messages_eq_spec]
    rcases h : gemini_system_spec messages with _ | t <;> simp
  · intro k model transport now
    simp only [geminiChat, Option.isNone_some, Bool.false_eq_true, if_false]
    rcases transport (gemini_build_body messages temperature top_p max_tokens) with
      rd | ⟨s, emsg⟩ | msg | estr <;> simp <;> split_ifs <;> rfl

/-- Witness for C3: concrete instantiations — a final response whose
candidate carries the unmapped vendor value `"WEIRD"` yields `"stop"`,
and a streaming chunk without a vendor finish-reason yields `none`. -/
theorem gemini_finish_reason_remap_witness :
    (_convert_gemini_response_to_standard
        ⟨[⟨[], some "WEIRD"⟩]⟩ "m" 0).choices.map Choice.finish_reason
      = [some "stop"]
    ∧ (gemini_parse_stream_chunk ⟨[⟨[], none⟩]⟩ "m" 0).map
        (fun o => o.choices.map StreamChoice.finish_reason) = some [none] :=
  ⟨gemini_finish_reason_remap.2.2.1 ⟨[⟨[], some "WEIRD"⟩]⟩ "m" 0
      ⟨[], some "WEIRD"⟩ "WEIRD" rfl rfl (by decide),
   gemini_finish_reason_remap.2.2.2.2.1 ⟨[⟨[], none⟩]⟩ "m" 0
      ⟨[], none⟩ rfl rfl⟩

/-- C5: a payload that is empty, equals `"[DONE]"`, or fails JSON decoding
parses to `none` and is never yielded; a `data: [DONE]` line terminates
the payload sequence (everything after it is ignored); an undecodable
payload contributes nothing to the yielded chunks; and a chunk is yielded
exactly when some surviving payload decodes and the per-chunk parser
returns a non-skip result for it. -/
theorem sse_payload_handling {J R : Type} (decode : String → Option J)
    (parseChunk : J → Option R) :
    (∀ l, l = "" ∨ l = "[DONE]" ∨ decode l = none →
        parse_sse_line decode l = none)
    ∧ (∀ pre post post',
        sse_data_lines (pre ++ "data: [DONE]" :: post)
          = sse_data_lines (pre ++ "data: [DONE]" :: post'))
    ∧ (∀ (payloads₁ payloads₂ : List String) (d : String), decode d = none →
        (payloads₁ ++ d :: payloads₂).filterMap
            (fun l => (parse_sse_line decode l).bind parseChunk)
          = (payloads₁ ++ payloads₂).filterMap
            (fun l => (parse_sse_line decode l).bind parseChunk))
    ∧ (∀ rawLines r, r ∈ chat_stream_sse decode parseChunk rawLines ↔
        ∃ l ∈ sse_data_lines rawLines, ∃ j,
          parse_sse_line decode l = some j ∧ parseChunk j = some r) := by
  refine ⟨?_, ?_, ?_, ?_⟩
  · intro l h
    unfold parse_sse_line
    rcases h with h | h | h
    · simp [h]
    · simp [h]
    · split_ifs <;> simp [h]
  · intro pre post post'
    induction pre with
    | nil => rfl
    | cons x xs ih =>
      simp only [List.cons_append, sse_data_lines]
      split_ifs <;> simp [ih]
  · intro p1 p2 d hd
    have h0 : (parse_sse_line decode d).bind parseChunk = none := by
      unfold parse_sse_line
      split_ifs <;> simp [hd]
    simp [List.filterMap_append, List.filterMap_cons, h0]
  · intro rawLines r
    unfold chat_stream_sse
    simp only [List.mem_filterMap, Option.bind_eq_some]

/-- Witness for C5: the `"[DONE]"` payload parses to `none`, and a
concrete line sequence is cut at the `data: [DONE]` line. -/
theorem sse_payload_handling_witness :
    parse_sse_line (J := Nat) (fun _ => none) "[DONE]" = none
    ∧ sse_data_lines ["data: x", "data: [DONE]", "data: y"]
        = sse_data_lines ["data: x", "data: [DONE]"] :=
  ⟨(sse_payload_handling (J := Nat) (R := Nat) (fun _ => none) some).1
      "[DONE]" (Or.inr (Or.inl rfl)),
   (sse_payload_handling (J := Nat) (R := Nat) (fun _ => none) some).2.1
      ["data: x"] ["data: y"] []⟩

/-- C6: on an available provider, any failing `chat` call ends in one of
the two provider error kinds (`rateLimitError` or `providerError`) — for
the Gemini adapter, the Groq adapter, and the shared
`BaseProvider._make_request`; no transport failure escapes unclassified. -/
theorem chat_errors_classified :
    (∀ (k : String) (messages : List Message) (temperature : Float)
        (max_tokens : Option Nat) (top_p : Float) (model : Option String)
        (transport : GeminiWireBody → TransportResult GeminiResponse)
        (now : Nat) (e : FFError),
      (geminiChat (some k) messages temperature max_tokens top_p model
          transport now).1 = .error e →
      (∃ p m, e = FFError.rateLimitError p m) ∨
        (∃ p m, e = FFError.providerError p m))
    ∧ (∀ (k : String) (messages : List Message) (temperature : Float)
        (max_tokens : Option Nat) (top_p : Float) (model : Option String)
        (transport : GroqWireBody → TransportResult GroqResponse)
        (now : Nat) (e : FFError),
      (groqChat (some k) messages temperature max_tokens top_p model
          transport now).1 = .error e →
      (∃ p m, e = FFError.rateLimitError p m) ∨
        (∃ p m, e = FFError.providerError p m))
    ∧ (∀ {α : Type} (name : String) (tr : TransportResult α) (e : FFError),
      base_make_request name tr = .error e →
      (∃ p m, e = FFError.rateLimitError p m) ∨
        (∃ p m, e = FFError.providerError p m)) := by
  refine ⟨?_, ?_, ?_⟩
  · intro k messages temperature max_tokens top_p model transport now e
    simp only [geminiChat, Option.isNone_some, Bool.false_eq_true, if_false]
    rcases transport (gemini_build_body messages temperature top_p max_tokens) with
      rd | ⟨s, emsg⟩ | msg | estr <;> simp <;> (try split_ifs) <;> intro h <;>
      (try injection h with h) <;> subst h <;>
      first
        | exact Or.inl ⟨_, _, rfl⟩
        | exact Or.inr ⟨_, _, rfl⟩
  · intro k messages temperature max_tokens top_p model transport now e
    simp only [groqChat, Option.isNone_some, Bool.false_eq_true, if_false]
    rcases transport (groq_build_body messages temperature top_p max_tokens
        (match model with
         | some m => m
         | none => (DEFAULT_MODELS "groq").getD "") none) with
      rd | ⟨s, emsg⟩ | msg | estr <;> simp <;> (try split_ifs) <;> intro h <;>
      (try injection h with h) <;> subst h <;>
      first
        | exact Or.inl ⟨_, _, rfl⟩
        | exact Or.inr ⟨_, _, rfl⟩
  · intro α name tr e
    unfold base_make_request
    rcases tr with rd | ⟨s, emsg⟩ | msg | estr <;> simp <;> (try split_ifs) <;>
      intro h <;> (try injection h with h) <;> subst h <;>
      first
        | exact Or.inl ⟨_, _, rfl⟩
        | exact Or.inr ⟨_, _, rfl⟩

/-- Witness for C6: a timed-out Gemini call ends in one of the two
classified error kinds. -/
theorem chat_errors_classified_witness :
    (∃ p m, FFError.providerError "gemini" "Request timeout: t"
        = FFError.rateLimitError p m) ∨
      (∃ p m, FFError.providerError "gemini" "Request timeout: t"
        = FFError.providerError p m) :=
  chat_errors_classified.1 "k" [⟨"user", "hi"⟩] 1.0 none 1.0 none
    (fun _ => .timeout "t") 0
    (FFError.providerError "gemini" "Request timeout: t") rfl

/-- C7 counterexample: a Groq vendor reply with no `choices` (all optional
fields absent, `choices = []`) converts successfully into a canonical
response whose `choices` sequence is empty — `chat` returns it without
error, contradicting the non-emptiness invariant. -/
theorem groq_empty_choices :
    ((groqChat (some "k") [⟨"user", "hi"⟩] 1.0 none 1.0 none
        (fun _ => .ok ⟨none, none, none, [], none⟩) 0).1.toOption.map
      FreeFlowResponse.choices) = some [] := rfl

/-- C7 (amended): a successful Gemini `chat` always returns exactly one
choice (so its `choices` are non-empty); a successful Groq `chat` returns
a canonical response whose choices mirror the vendor reply's `choices`
element-wise — the same length, hence non-empty exactly when the vendor
supplied at least one choice. -/
theorem chat_choices_shape :
    (∀ (k : String) (messages : List Message) (temperature : Float)
        (max_tokens : Option Nat) (top_p : Float) (model : Option String)
        (transport : GeminiWireBody → TransportResult GeminiResponse)
        (now : Nat) (resp : FreeFlowResponse),
      (geminiChat (some k) messages temperature max_tokens top_p model
          transport now).1 = .ok resp →
      resp.choices.length = 1)
    ∧ (∀ (rd : GroqResponse) (model : String) (now : Nat),
      (groq_parse_response rd model now).choices.length = rd.choices.length)
    ∧ (∀ (k : String) (messages : List Message) (temperature : Float)
        (max_tokens : Option Nat) (top_p : Float) (model : Option String)
        (transport : GroqWireBody → TransportResult GroqResponse)
        (now : Nat) (resp : FreeFlowResponse),
      (groqChat (some k) messages temperature max_tokens top_p model
          transport now).1 = .ok resp →
      ∃ (rd : GroqResponse) (m : String),
        transport (groq_build_body messages temperature top_p max_tokens m none)
            = .ok rd
          ∧ resp = groq_parse_response rd m now) := by
  refine ⟨?_, ?_, ?_⟩
  · intro k messages temperature max_tokens top_p model transport now resp
    simp only [geminiChat, Option.isNone_some, Bool.false_eq_true, if_false]
    rcases transport (gemini_build_body messages temperature top_p max_tokens) with
      rd | ⟨s, emsg⟩ | msg | estr <;> simp <;> (try split_ifs) <;> (try simp) <;>
      intro h <;> subst h <;> simp [_convert_gemini_response_to_standard]
  · intro rd model now
    simp [groq_parse_response]
  · intro k messages temperature max_tokens top_p model transport now resp
    simp only [groqChat, Option.isNone_some, Bool.false_eq_true, if_false]
    rcases htr : transport (groq_build_body messages temperature top_p max_tokens
        (match model with
         | some m => m
         | none => (DEFAULT_MODELS "groq").getD "") none) with
      rd | ⟨s, emsg⟩ | msg | estr <;> simp <;> (try split_ifs) <;> (try simp) <;>
      intro h <;> subst h
    exact ⟨rd, _, htr, rfl⟩

/-- Witness for C7 (amended): a concrete successful Gemini call yields a
single-choice response. -/
theorem chat_choices_shape_witness :
    (_convert_gemini_response_to_standard ⟨[]⟩ "gemini-2.5-flash" 0).choices.length
      = 1 :=
  chat_choices_shape.1 "k" [] 1.0 none 1.0 none (fun _ => .ok ⟨[]⟩) 0 _ rfl

/-- C8 counterexample: for the message `"quota reached"` arising from a
caught generic exception, the Gemini adapter raises the rate-limit kind
(its handler additionally matches the bare substring `"quota"`) while the
Groq adapter raises the generic provider-error kind — the two adapters do
not classify every message identically. -/
theorem quota_message_classified_differently :
    (geminiChat (some "k") [⟨"user", "hi"⟩] 1.0 none 1.0 none
        (fun _ => .otherExn "quota reached") 0).1
      = .error (.rateLimitError "gemini" "quota reached")
    ∧ (groqChat (some "k") [⟨"user", "hi"⟩] 1.0 none 1.0 none
        (fun _ => .otherExn "quota reached") 0).1
      = .error (.providerError "groq" "quota reached") := by
  constructor <;> rfl

/-- C8 (amended): for failures from caught generic exceptions, Groq (and
the base class) classify via `"429" in msg or is_rate_limit_error(0,
msg)`, while Gemini additionally treats any message containing `"quota"`
(case-insensitively) as a rate limit; the two policies coincide — and the
two adapters raise the same error kind — for every message not containing
`"quota"` case-insensitively. -/
theorem generic_exn_policy_relation :
    (∀ msg, gemini_generic_is_rate_limit msg
        = (generic_exn_is_rate_limit msg || strIn "quota" (strLower msg)))
    ∧ (∀ msg, strIn "quota" (strLower msg) = false →
        gemini_generic_is_rate_limit msg = generic_exn_is_rate_limit msg)
    ∧ (∀ (k : String) (messages : List Message) (temperature : Float)
        (max_tokens : Option Nat) (top_p : Float) (model : Option String)
        (now : Nat) (estr : String), strIn "quota" (strLower estr) = false →
        ∃ kind : Bool,
          (geminiChat (some k) messages temperature max_tokens top_p model
              (fun _ => .otherExn estr) now).1
            = .error (if kind then .rateLimitError "gemini" estr
                      else .providerError "gemini" estr)
          ∧ (groqChat (some k) messages temperature max_tokens top_p model
              (fun _ => .otherExn estr) now).1
            = .error (if kind then .rateLimitError "groq" estr
                      else .providerError "groq" estr)) := by
  refine ⟨?_, ?_, ?_⟩
  · intro msg
    simp only [gemini_generic_is_rate_limit, generic_exn_is_rate_limit]
    cases strIn "429" msg <;> cases strIn "quota" (strLower msg) <;>
      cases is_rate_limit_error 0 msg <;> rfl
  · intro msg h
    simp only [gemini_generic_is_rate_limit, generic_exn_is_rate_limit, h,
      Bool.false_or, Bool.or_false]
  · intro k messages temperature max_tokens top_p model now estr hq
    have hg : gemini_generic_is_rate_limit estr = generic_exn_is_rate_limit estr := by
      simp only [gemini_generic_is_rate_limit, generic_exn_is_rate_limit, hq,
        Bool.false_or, Bool.or_false]
    refine ⟨generic_exn_is_rate_limit estr, ?_, ?_⟩
    · simp only [geminiChat, Option.isNone_some, Bool.false_eq_true, if_false]
      cases h2 : generic_exn_is_rate_limit estr <;> simp [hg, h2]
    · simp only [groqChat, Option.isNone_some, Bool.false_eq_true, if_false]
      cases h2 : generic_exn_is_rate_limit estr <;> simp [h2]

/-- Witness for C8 (amended): on the quota-free message `"boom"` both
adapters raise the same (generic) error kind. -/
theorem generic_exn_policy_relation_witness :
    ∃ kind : Bool,
      (geminiChat (some "k") [⟨"user", "hi"⟩] 1.0 none 1.0 none
          (fun _ => .otherExn "boom") 0).1
        = .error (if kind then .rateLimitError "gemini" "boom"
                  else .providerError "gemini" "boom")
      ∧ (groqChat (some "k") [⟨"user", "hi"⟩] 1.0 none 1.0 none
          (fun _ => .otherExn "boom") 0).1
        = .error (if kind then .rateLimitError "groq" "boom"
                  else .providerError "groq" "boom") :=
  generic_exn_policy_relation.2.2 "k" [⟨"user", "hi"⟩] 1.0 none 1.0 none 0
    "boom" (by decide)

/-- C9: with `max_tokens` unset the Groq wire body carries
`max_tokens = 1024` while the Gemini `generationConfig` omits
`maxOutputTokens`; with `max_tokens` set both carry the given value. The
last conjunct ties the Groq builder to `chat`: an available adapter hands
exactly this body to the transport. -/
theorem max_tokens_defaulting (messages : List Message)
    (temperature top_p : Float) (model : String) (stream : Option Bool)
    (v : Nat) :
    (groq_build_body messages temperature top_p none model stream).max_tokens
        = 1024
    ∧ (groq_build_body messages temperature top_p (some v) model stream).max_tokens
        = v
    ∧ (gemini_build_body messages temperature top_p
        none).generationConfig.maxOutputTokens = none
    ∧ (gemini_build_body messages temperature top_p
        (some v)).generationConfig.maxOutputTokens = some v
    ∧ (∀ (k : String) (mt : Option Nat)
        (transport : GroqWireBody → TransportResult GroqResponse) (now : Nat),
        (groqChat (some k) messages temperature mt top_p (some model)
            transport now).2
          = [groq_build_body messages temperature top_p mt model none]) := by
  refine ⟨rfl, rfl, rfl, rfl, ?_⟩
  intro k mt transport now
  simp only [groqChat, Option.isNone_some, Bool.false_eq_true, if_false]
  rcases transport (groq_build_body messages temperature top_p mt model none) with
    rd | ⟨s, emsg⟩ | msg | estr <;> simp <;> split_ifs <;> rfl

/-- C10: every successful Gemini `chat` response has exactly one choice,
at index 0, whose message role is the literal `"model"` (Gemini's vendor
role name) and not `"assistant"`. -/
theorem gemini_single_model_choice :
    ∀ (k : String) (messages : List Message) (temperature : Float)
      (max_tokens : Option Nat) (top_p : Float) (model : Option String)
      (transport : GeminiWireBody → TransportResult GeminiResponse)
      (now : Nat) (resp : FreeFlowResponse),
      (geminiChat (some k) messages temperature max_tokens top_p model
          transport now).1 = .ok resp →
      resp.choices.length = 1 ∧
        ∀ c ∈ resp.choices,
          c.index = 0 ∧ c.message.role = "model"
            ∧ c.message.role ≠ "assistant" := by
  intro k messages temperature max_tokens top_p model transport now resp
  simp only [geminiChat, Option.isNone_some, Bool.false_eq_true, if_false]
  rcases transport (gemini_build_body messages temperature top_p max_tokens) with
    rd | ⟨s, emsg⟩ | msg | estr <;> simp <;> (try split_ifs) <;> (try simp) <;>
    intro h <;> subst h <;> simp [_convert_gemini_response_to_standard]

/-- Witness for C10: a concrete successful Gemini call yields one choice
with role `"model"`. -/
theorem gemini_single_model_choice_witness :
    (_convert_gemini_response_to_standard ⟨[]⟩ "gemini-2.5-flash" 5).choices.length
        = 1
    ∧ ∀ c ∈ (_convert_gemini_response_to_standard ⟨[]⟩
        "gemini-2.5-flash" 5).choices,
        c.index = 0 ∧ c.message.role = "model"
          ∧ c.message.role ≠ "assistant" :=
  gemini_single_model_choice "k" [] 1.0 none 1.0 none (fun _ => .ok ⟨[]⟩) 5 _ rfl

end Freeflow
